import Mathlib

/-!
# Catnip: a verification development of the motion-detection core

This file embeds the Catnip motion-surveillance core (files `catnip/camera.py`,
`catnip/event.py`, `catnip/manager.py`, `catnip/__main__.py`) as executable Lean
definitions and proves properties of the embedded code.

Modelling conventions:

* A `Frame`'s pixel buffer is a grid of natural-number intensities
  (`List (List Nat)`); uint8 arithmetic is exact here because `cv2.absdiff` of
  8-bit inputs never exceeds 255 and thresholding produces only 0 or 255.
* `cv2.threshold` with `THRESH_BINARY` (the only mode the call sites use) maps a
  pixel `v` to `maxval` when `threshold < v` and to `0` otherwise.
* `cv2.dilate` with kernel `None` is a 3x3 rectangular maximum filter applied
  `iterations` times; pixels outside the image do not contribute.
* `cv2.findContours`/`imutils.grab_contours`/`cv2.contourArea` are modelled as
  the list of 8-connected components of the nonzero pixels of the mask, each
  represented by its pixel area, matching the spec's reading of a contour as "a
  connected region of the thresholded/dilated motion mask" counted by area.
  (`cv2.contourArea` itself computes the polygon area through pixel centers,
  which is smaller for thin regions — 0 for one-pixel-thin ones, (w-1)*(h-1)
  for a solid w x h rectangle. Every concrete survivor-count fact proved below
  therefore uses inputs whose surviving regions are solid rectangles clearing,
  or empty masks trivially passing, the same comparisons under both area
  semantics, so those counts are the program's.)
* Wall-clock readings of `time.time()` and durations are modelled as integer
  ticks (`Int`); the claims settled here are order-theoretic in time, so only
  the linear order and subtraction on timestamps matter.
* The preprocessing `resize`/`recolor`/`blur` steps are deterministic external
  OpenCV transforms of the raw frame; the detection-loop model receives the
  already preprocessed motion frame as an input, which is where every claim
  about the loop begins.
* Python dynamic errors are modelled explicitly: a call whose positional-argument
  count differs from the callee's parameter count raises `TypeError`, and an
  attribute access not backed by any attribute ever assigned by the class
  raises `AttributeError`.
-/

namespace Catnip

set_option maxRecDepth 20000

/-- Pixel buffer of a `Frame` (camera.py `Frame._frame_data`): rows of
natural-number intensities. -/
abbrev Grid := List (List Nat)

/-- Absolute difference of two pixels, `cv2.absdiff` on one channel. -/
def pixAbsDiff (a b : Nat) : Nat := max a b - min a b

/-- `cv2.absdiff` on one row. -/
def rowAbsDiff (r s : List Nat) : List Nat := List.zipWith pixAbsDiff r s

/-- `cv2.absdiff` on whole buffers: `Frame.delta` body (camera.py 117-131). -/
def gridDelta (g h : Grid) : Grid := List.zipWith rowAbsDiff g h

/-- One pixel of `cv2.threshold(..., THRESH_BINARY)`: `maxval` when the source
pixel strictly exceeds the threshold, else 0. -/
def threshPix (t maxv v : Nat) : Nat := if t < v then maxv else 0

/-- `cv2.threshold(delta, threshold, max_amount, THRESH_BINARY)` on a buffer. -/
def gridThreshold (t maxv : Nat) (g : Grid) : Grid :=
  g.map (List.map (threshPix t maxv))

/-- Horizontal pass of the 3x3 maximum filter: each pixel becomes the maximum
of itself and its left/right neighbours (0 outside the image). -/
def hdilateRow (l : List Nat) : List Nat :=
  List.zipWith max (List.zipWith max (0 :: l) l) (l.drop 1 ++ [0])

/-- An all-zero row of the same width as the grid's rows (used as the missing
row above/below the image in the vertical pass). -/
def zeroRowLike (g : Grid) : List Nat :=
  match g with
  | [] => []
  | r :: _ => r.map (fun _ => 0)

/-- Pointwise maximum of two rows. -/
def rowMax (r s : List Nat) : List Nat := List.zipWith max r s

/-- Vertical pass of the 3x3 maximum filter: each row becomes the pointwise
maximum of itself and the rows above and below (all-zero outside the image). -/
def vdilate (g : Grid) : Grid :=
  List.zipWith rowMax (List.zipWith rowMax (zeroRowLike g :: g) g)
    (g.drop 1 ++ [zeroRowLike g])

/-- One application of `cv2.dilate` with kernel `None` (3x3 rectangle):
separable maximum filter, horizontal then vertical pass. -/
def dilateOnce (g : Grid) : Grid := vdilate (g.map hdilateRow)

/-- `cv2.dilate(..., iterations = n)`. -/
def dilateIter : Nat → Grid → Grid
  | 0, g => g
  | n + 1, g => dilateIter n (dilateOnce g)

/-- Maximal runs of nonzero pixels in a row, as closed column intervals
`(start, stop)`; accumulator carries the run currently open. -/
def runsAux : List Nat → Nat → Option (Nat × Nat) → List (Nat × Nat)
  | [], _, none => []
  | [], _, some r => [r]
  | v :: rest, i, cur =>
    if v = 0 then
      match cur with
      | none => runsAux rest (i + 1) none
      | some r => r :: runsAux rest (i + 1) none
    else
      match cur with
      | none => runsAux rest (i + 1) (some (i, i))
      | some (s, _) => runsAux rest (i + 1) (some (s, i))

/-- Maximal nonzero runs of a row. -/
def rowRuns (row : List Nat) : List (Nat × Nat) := runsAux row 0 none

/-- 8-connectivity between a run `[s, e]` of the current row and a run
`[ps, pe]` of the previous row: the intervals touch diagonally or overlap. -/
def runTouches (s e ps pe : Nat) : Bool := decide (ps ≤ e + 1) && decide (s ≤ pe + 1)

/-- Size of the component with the given label in an association list. -/
def lookupSize (l : List (Nat × Nat)) (i : Nat) : Nat :=
  match l.find? (fun p => p.1 == i) with
  | none => 0
  | some p => p.2

/-- State while labelling one row: the previous row's runs (with labels), the
sizes of the components still open, the labelled runs of the current row, and
the next fresh label. -/
structure RowState where
  prevRuns : List (Nat × Nat × Nat)
  openSizes : List (Nat × Nat)
  newRuns : List (Nat × Nat × Nat)
  nextId : Nat

/-- Relabel every run whose label is in `ids` with `target`. -/
def renameRuns (ids : List Nat) (target : Nat) (runs : List (Nat × Nat × Nat)) :
    List (Nat × Nat × Nat) :=
  runs.map (fun q => if ids.contains q.2.2 then (q.1, q.2.1, target) else q)

/-- Label a single run of the current row: either it touches no component of
the previous row and opens a fresh component, or it connects one or more
previous components, which are merged into one. -/
def processRun (st : RowState) (r : Nat × Nat) : RowState :=
  let len := r.2 + 1 - r.1
  let ids := ((st.prevRuns.filter
      (fun q => runTouches r.1 r.2 q.1 q.2.1)).map (fun q => q.2.2)).dedup
  match ids with
  | [] =>
    { st with newRuns := st.newRuns ++ [(r.1, r.2, st.nextId)],
              openSizes := st.openSizes ++ [(st.nextId, len)],
              nextId := st.nextId + 1 }
  | t :: _ =>
    let total := (ids.map (lookupSize st.openSizes)).sum + len
    { st with prevRuns := renameRuns ids t st.prevRuns,
              newRuns := renameRuns ids t st.newRuns ++ [(r.1, r.2, t)],
              openSizes := (st.openSizes.filter (fun p => !ids.contains p.1)) ++ [(t, total)] }

/-- State of the row-by-row connected-component labelling. -/
structure CCState where
  prevRuns : List (Nat × Nat × Nat)
  openSizes : List (Nat × Nat)
  closed : List Nat
  nextId : Nat

/-- Label one row: label each of its runs, then close every component that the
new row does not continue (8-connectivity only links adjacent rows). -/
def processRow (st : CCState) (row : List Nat) : CCState :=
  let r1 := (rowRuns row).foldl processRun ⟨st.prevRuns, st.openSizes, [], st.nextId⟩
  let liveIds := r1.newRuns.map (fun q => q.2.2)
  ⟨r1.newRuns,
   r1.openSizes.filter (fun p => liveIds.contains p.1),
   st.closed ++ (r1.openSizes.filter (fun p => !liveIds.contains p.1)).map (fun p => p.2),
   r1.nextId⟩

/-- Pixel areas of the 8-connected components of the nonzero pixels of a mask:
the model of `cv2.findContours` + `imutils.grab_contours` + `cv2.contourArea`
(camera.py 216-227). -/
def componentSizes (g : Grid) : List Nat :=
  let fin := g.foldl processRow ⟨[], [], [], 0⟩
  fin.closed ++ fin.openSizes.map (fun p => p.2)

/-- `Frame.delta` (camera.py 117-131). -/
def Frame.delta (a b : Grid) : Grid := gridDelta a b

/-- `Frame.threshold` (camera.py 133-172): computes the delta with the other
frame and binary-thresholds it. The call sites only ever use
`THRESH_BINARY`, which is the mode embedded here. -/
def Frame.threshold (a b : Grid) (t maxv : Nat) : Grid :=
  gridThreshold t maxv (Frame.delta a b)

/-- `Frame.dilate` (camera.py 174-194): thresholds with the *default* level 30
and max 255 (the source calls `self.threshold(other_frame)` with no further
arguments), then dilates `iterations` times. -/
def Frame.dilate (a b : Grid) (iterations : Nat) : Grid :=
  dilateIter iterations (Frame.threshold a b 30 255)

/-- `Frame.contours` (camera.py 196-227): dilates with the *default* iteration
count 2 (the source calls `self.dilate(other_frame)` with no further
arguments) and keeps the contours of area at least `minimum_area`. -/
def Frame.contours (a b : Grid) (minimum_area : Nat) : List Nat :=
  (componentSizes (Frame.dilate a b 2)).filter (fun x => minimum_area ≤ x)

/-- `Frame.is_similar` (camera.py 229-243): no surviving contour with the
*default* minimum area 2500 (the source calls `self.contours(other_frame)`
with no further arguments). -/
def Frame.is_similar (a b : Grid) : Bool :=
  (Frame.contours a b 2500).length == 0

/-- The detection pipeline threshold→dilate→contour-count with the threshold
level, dilation iteration count and minimum area exposed as parameters: the
composition of `Frame.threshold`, `dilateIter` and the area filter exactly as
`Frame.contours` composes them, used to state how the pipeline varies with the
threshold level. -/
def pipelineMask (a b : Grid) (t iterations : Nat) : Grid :=
  dilateIter iterations (Frame.threshold a b t 255)

/-- Number of surviving contours of the parametrised pipeline. -/
def pipelineCount (a b : Grid) (t iterations minimum_area : Nat) : Nat :=
  ((componentSizes (pipelineMask a b t iterations)).filter
    (fun x => minimum_area ≤ x)).length

/-! ## The Event class (event.py) -/

/-- State of `catnip.event.Event`. Fields `trigger`, `updated` and
`path_index` are the attributes `Event.__init__` assigns (event.py 35-57);
`start` and `path` (a wall-clock `datetime` and the directory derived from it)
are summarised by the ghost identity `id`, which names one created event so
that statements can speak about "the same event"; `files` is a ghost log of the
`(path_index, frame)` pairs written by `add_frame`, recording which file names
were used. -/
structure EventSt where
  id : Nat
  trigger : Grid
  updated : Int
  path_index : Nat
  files : List (Nat × Grid)

/-- `Event.__init__` (event.py 35-57), given the constructor's one parameter
`trigger`, the `time.time()` reading `now` and the ghost identity: sets
`updated` to now and `path_index` to 0. -/
def eventInit (trigger : Grid) (now : Int) (id : Nat) : EventSt :=
  ⟨id, trigger, now, 0, []⟩

/-- `Event.should_update_trigger` (event.py 63-77): `self.updated <=
time.time() - delta`, with `now` the `time.time()` reading. -/
def should_update_trigger (e : EventSt) (delta now : Int) : Bool :=
  decide (e.updated ≤ now - delta)

/-- `Event.add_frame` (event.py 79-91): writes the frame to the file named by
the current `path_index` (recorded in the ghost `files` log) and then
increments `path_index`. -/
def add_frame (e : EventSt) (frame : Grid) : EventSt :=
  { e with files := e.files ++ [(e.path_index, frame)],
           path_index := e.path_index + 1 }

/-- `Event.update_trigger` (event.py 93-103): replaces the trigger frame and
stamps `updated` with the current `time.time()` reading. -/
def update_trigger (e : EventSt) (frame : Grid) (now : Int) : EventSt :=
  { e with trigger := frame, updated := now }

/-- Repeated `add_frame` calls, one per listed frame. -/
def addFrames : EventSt → List Grid → EventSt
  | e, [] => e
  | e, f :: fs => addFrames (add_frame e f) fs

/-! ## Python dynamic-error facts about event.py/manager.py

These record, as checkable data, the two source-level inconsistencies between
`manager.py` and `event.py` that decide how the detection loop behaves. -/

/-- Number of parameters of `Event.__init__` (event.py 35), `self` included:
`(self, trigger)`, with no defaults and no varargs. -/
def eventInitParamCount : Nat := 2

/-- Number of positional arguments `Manager._create_event` passes to the
`Event` constructor (manager.py 120): `Event(frame, path, self.camera.width,
self.camera.height, self.camera.fps)`, `self` included. -/
def createEventArgCount : Nat := 6

/-- A Python call succeeds only when the argument count matches the callee's
parameter count (no defaults or varargs here); otherwise it raises
`TypeError`. -/
def createEventCallOk : Bool := createEventArgCount == eventInitParamCount

/-- Every attribute name ever assigned on an `Event` instance, collected from
the whole of event.py: the five `__init__` assignments and nothing else
(`file_path` is a property of the class, listed for completeness). -/
def eventAttrNames : List String :=
  ["trigger", "start", "updated", "path", "path_index", "file_path"]

/-- Whether `self.event.writer` (manager.py 178) resolves: an attribute access
succeeds only if the name is one the class ever defines, else it raises
`AttributeError`. -/
def eventHasWriter : Bool := eventAttrNames.contains "writer"

/-! ## The Manager (manager.py) -/

/-- Python exceptions the modelled code can raise. -/
inductive PyErr where
  | typeError
  | attributeError
deriving DecidableEq

/-- Callback invocations `Manager._do_callback` makes, tagged with the ghost
identity of the event passed to the callback. -/
inductive Cb where
  | eventStart (id : Nat)
  | eventEnd (id : Nat)
deriving DecidableEq

/-- The Manager's configuration as consumed by `detect` (manager.py 53-74):
`recording_length` and `detection_wait`. -/
structure Config where
  recording_length : Int
  detection_wait : Int

/-- The Manager state the detection loop reads and writes: the active-event
reference `event`, the background model `average_frame`, and a ghost counter
supplying fresh event identities. -/
structure MState where
  event : Option EventSt
  average_frame : Option Grid
  nextId : Nat

/-- The sleep duration computed at the end of a detection cycle
(manager.py 192-199): `(detection_wait - dur) if dur <= detection_wait else
detection_wait`. -/
def detectSleep (wait dur : Int) : Int :=
  if dur ≤ wait then wait - dur else wait

/-- Defaults in `__main__.py`'s argument parser: `--minimum-area` defaults
to 1000. -/
def cliMinimumAreaDefault : Nat := 1000

/-- Default `minimum_area` of `Frame.contours` (camera.py 196). -/
def contoursDefaultMinArea : Nat := 2500

/-- The `minimum_area` argument `Manager.detect` passes at its contour call
`blur.contours(self.average_frame)` (manager.py 170): none. -/
def detectContoursMinAreaArg : Option Nat := none

/-- The minimum contour area the detection loop actually uses: the explicit
argument if one were passed, else the `Frame.contours` default. -/
def detectMinAreaUsed : Nat := detectContoursMinAreaArg.getD contoursDefaultMinArea

/-- The non-self parameters of `Manager.__init__` (manager.py 53-58): the whole
configuration surface the Manager accepts. -/
def managerInitParamNames : List String :=
  ["device_id", "output_path", "recording_length", "detection_wait"]

/-- The contour count `Manager.detect` computes each cycle (manager.py 170):
`blur.contours(self.average_frame)`, which resolves `minimum_area` to the
default 2500 because no argument is passed. -/
def contoursCount (blur average : Grid) : Nat :=
  (Frame.contours blur average detectMinAreaUsed).length

/-- One iteration of the `while not self.exit_event.is_set()` body of
`Manager.detect` (manager.py 157-199), given the preprocessed motion frame
`blur` (the resize→grayscale→blur of the copied latest frame), the
`time.time()` reading `now`, and the measured pipeline duration `dur`.

Returns the new state, the callbacks invoked, and the time slept at the end of
the iteration (`0` for the two `continue` paths, which skip the sleep), or the
Python error the iteration raises:

* no background model yet → `continue` (manager.py 160-161);
* event active, due for re-evaluation, trigger NOT similar → update the
  trigger and `continue` (174-176);
* event active, due, trigger similar → `self.event.writer.release()`: `Event`
  defines no `writer` attribute, so this raises `AttributeError` (178); the
  `.ok` branch records what the remaining statements 180-184 would do;
* event active, not yet due → fall through to the sleep;
* idle with at least one contour → `self._create_event(blur)` calls
  `Event(frame, path, width, height, fps)` against `Event.__init__(self,
  trigger)`, which raises `TypeError` (120); the `.ok` branch records what
  lines 186-190 would do on a matching constructor;
* idle with no contour → fall through to the sleep. -/
def detectCycle (cfg : Config) (s : MState) (blur : Grid) (now dur : Int) :
    Except PyErr (MState × List Cb × Int) :=
  match s.average_frame with
  | none => .ok (s, [], 0)
  | some avg =>
    let contours := contoursCount blur avg
    match s.event with
    | some e =>
      if should_update_trigger e cfg.recording_length now then
        if Frame.is_similar e.trigger blur = false then
          .ok ({ s with event := some (update_trigger e blur now) }, [], 0)
        else if eventHasWriter then
          .ok ({ s with event := none, average_frame := some blur },
               [Cb.eventEnd e.id], detectSleep cfg.detection_wait dur)
        else .error PyErr.attributeError
      else .ok (s, [], detectSleep cfg.detection_wait dur)
    | none =>
      if 0 < contours then
        if createEventCallOk then
          .ok ({ s with event := some (eventInit blur now s.nextId),
                        nextId := s.nextId + 1 },
               [Cb.eventStart s.nextId], detectSleep cfg.detection_wait dur)
        else .error PyErr.typeError
      else .ok (s, [], detectSleep cfg.detection_wait dur)

/-- A sequence of detection cycles, one per `(blur, now, dur)` input, threading
the state and collecting the callbacks; stops at the first raised error, as the
uncaught exception kills the thread. -/
def detectRun (cfg : Config) : MState → List (Grid × Int × Int) →
    Except PyErr (MState × List Cb)
  | s, [] => .ok (s, [])
  | s, (b, now, dur) :: rest =>
    match detectCycle cfg s b now dur with
    | .error err => .error err
    | .ok (s1, cbs, _) =>
      match detectRun cfg s1 rest with
      | .error err => .error err
      | .ok (s2, cbs2) => .ok (s2, cbs ++ cbs2)

/-- The chain condition "each arriving motion frame is dissimilar from the
trigger it is compared against", for a run in which every cycle is due for
re-evaluation (so the trigger is always the previous frame in the chain). -/
def dissimChain : Grid → List (Grid × Int × Int) → Bool
  | _, [] => true
  | t, (b, _, _) :: rest => !(Frame.is_similar t b) && dissimChain b rest

/-- The timing condition "every cycle's clock reading is at least
`recording_length` past the previous trigger update", making every cycle due
for re-evaluation. -/
def spacedTimes : Int → Int → List (Grid × Int × Int) → Bool
  | _, _, [] => true
  | len, u, (_, now, _) :: rest => decide (u ≤ now - len) && spacedTimes len now rest

/-- The guard of the wait loop at the top of `Manager.detect`
(manager.py 154-155): `while self.latest_frame is None: time.sleep(0.1)`.
The loop exits within its first `n` iterations exactly when some iteration
observes a non-None `latest_frame`; the stop flag `exit_set` is *not*
consulted by the source loop, which is why the parameter is unused. -/
def detectWaitExitsWithin (latestByIter : Nat → Option Grid) (exit_set : Bool)
    (n : Nat) : Bool :=
  (List.range n).any fun i => (latestByIter i).isSome

/-- The guard of `Manager.record`'s loop (manager.py 207): `while not
self.exit_event.is_set()` — another iteration runs only while the stop flag is
unset. -/
def recordLoopContinues (exit_set : Bool) : Bool := !exit_set

/-! ## Concrete inputs used by witnesses and counterexamples -/

/-- A 5x15 "dumbbell" frame: two solid 5x5 blocks of strong motion (200) at
the left and right edges, joined by a faint one-pixel-high bridge (50) across
the middle row. Thresholding at 30 keeps blocks and bridge — after two
dilations the mask is the full solid 5x15 rectangle, one contour — while
thresholding at 100 erases the bridge, leaving two solid 7x5 rectangles after
dilation, two contours. Both survivor counts agree with the real program: the
surviving regions are solid rectangles whose `cv2.contourArea` (the polygon
area through pixel centers: 14*4 = 56 at level 30, 6*4 = 24 each at level 100)
and whose pixel areas (75; 35 each) all clear the area filter of 10. -/
def cexA : Grid :=
  [[200, 200, 200, 200, 200, 0, 0, 0, 0, 0, 200, 200, 200, 200, 200],
   [200, 200, 200, 200, 200, 0, 0, 0, 0, 0, 200, 200, 200, 200, 200],
   [200, 200, 200, 200, 200, 50, 50, 50, 50, 50, 200, 200, 200, 200, 200],
   [200, 200, 200, 200, 200, 0, 0, 0, 0, 0, 200, 200, 200, 200, 200],
   [200, 200, 200, 200, 200, 0, 0, 0, 0, 0, 200, 200, 200, 200, 200]]

/-- All-zero frame of the same shape as `cexA`. -/
def cexB : Grid := List.replicate 5 (List.replicate 15 0)

/-- A 51x51 all-255 motion frame: against an all-zero background it yields one
contour clearing the default minimum area 2500 under both area semantics
(pixel area 2601; `cv2.contourArea` of the solid square, the polygon area
through pixel centers, 50*50 = 2500). -/
def onesSq : Grid := List.replicate 51 (List.replicate 51 255)

/-- A 51x51 all-zero frame. -/
def zerosSq : Grid := List.replicate 51 (List.replicate 51 0)

/-- A 40x40 all-255 motion frame: pixel area 1600 (`cv2.contourArea` 1521),
above the CLI default minimum area 1000 but below the hardcoded default 2500
under both area semantics. -/
def fortySq : Grid := List.replicate 40 (List.replicate 40 255)

/-- A 40x40 all-zero frame. -/
def fortyZeros : Grid := List.replicate 40 (List.replicate 40 0)

/-- A one-pixel frame, for tiny similar-to-itself states. -/
def tinyG : Grid := [[0]]

/-- A concrete configuration: recording length 5, detection wait 1. -/
def cfg0 : Config := ⟨5, 1⟩

/-- A concrete active event: triggered by the all-zero square at time 0,
ghost identity 3. -/
def e6 : EventSt := eventInit zerosSq 0 3

/-- A concrete Manager state with `e6` active and the all-zero square as the
background model. -/
def s6 : MState := ⟨some e6, some zerosSq, 4⟩

/-- Two detection-cycle inputs carrying continuously dissimilar motion: the
all-255 square at time 10, then the all-zero square at time 20, each cycle due
for re-evaluation under `cfg0` and each frame dissimilar from the trigger it
meets. -/
def inputs6 : List (Grid × Int × Int) := [(onesSq, 10, 1), (zerosSq, 20, 1)]

/-- Every pixel of a row is zero. -/
def allZero (l : List Nat) : Prop := ∀ v ∈ l, v = 0

/-- Every pixel of a grid is zero. -/
def allZeroG (g : Grid) : Prop := ∀ r ∈ g, allZero r

/-- Pointwise order on rows of equal length. -/
def rowLE (r s : List Nat) : Prop := List.Forall₂ (fun a b => a ≤ b) r s

/-- Pointwise order on grids of equal shape. -/
def gridLE (g h : Grid) : Prop := List.Forall₂ rowLE g h

/-! ## Theorems -/

/-- C1 counterexample: with cadence 1 and elapsed time 2 the detection loop
sleeps the full cadence 1, not `max (0, 1 - 2) = 0`: when pipeline execution
exceeds the cadence the next cycle does not start immediately. -/
theorem detectSleep_not_max_zero_elapsed_two :
    detectSleep 1 2 = 1 ∧ max 0 (1 - 2 : Int) = 0 ∧
      detectSleep 1 2 ≠ max 0 (1 - 2 : Int) :=
  ⟨by decide, by decide, by decide⟩

/-- C1 (amended): a detection cycle that reaches the sleep statement sleeps
`cadence - elapsed` when `elapsed ≤ cadence` and the full cadence when
`elapsed > cadence`; the sleep is never negative for a nonnegative cadence;
and every non-raising cycle of the loop sleeps either 0 (the `continue`
paths) or exactly that amount. -/
theorem detectSleep_formula :
    (∀ wait dur : Int, 0 ≤ wait →
      (dur ≤ wait → detectSleep wait dur = wait - dur) ∧
      (wait < dur → detectSleep wait dur = wait) ∧
      0 ≤ detectSleep wait dur) ∧
    (∀ cfg s blur now dur out, detectCycle cfg s blur now dur = .ok out →
      out.2.2 = 0 ∨ out.2.2 = detectSleep cfg.detection_wait dur) := by
  constructor
  · intro wait dur hw
    refine ⟨fun h => by simp [detectSleep, h], fun h => ?_, ?_⟩
    · simp [detectSleep, not_le.mpr h]
    · unfold detectSleep
      split <;> omega
  · intro cfg s blur now dur out h
    rcases s with ⟨ev, av, nid⟩
    cases av with
    | none =>
      simp only [detectCycle] at h
      cases h
      exact Or.inl rfl
    | some avg =>
      cases ev with
      | some e =>
        simp only [detectCycle] at h
        split at h
        · split at h
          · cases h
            exact Or.inl rfl
          · split at h
            · cases h
              exact Or.inr rfl
            · simp at h
        · cases h
          exact Or.inr rfl
      | none =>
        simp only [detectCycle] at h
        split at h
        · split at h
          · cases h
            exact Or.inr rfl
          · simp at h
        · cases h
          exact Or.inr rfl

/-- Witness for the C1 amended theorem at cadence 1, elapsed 2, plus a
no-background `continue` cycle sleeping 0. -/
theorem detectSleep_formula_witness :
    (0 ≤ (1 : Int)) ∧
    ((2 : Int) ≤ 1 → detectSleep 1 2 = 1 - 2) ∧
    ((1 : Int) < 2 → detectSleep 1 2 = 1) ∧
    (0 ≤ detectSleep 1 2) ∧
    (((0 : Int) = 0) ∨ ((0 : Int) = detectSleep cfg0.detection_wait 5)) := by
  have h := detectSleep_formula
  have h1 := h.1 1 2 (by decide)
  refine ⟨by decide, h1.1, h1.2.1, h1.2.2, ?_⟩
  exact h.2 cfg0 ⟨none, none, 0⟩ tinyG 0 5 (⟨none, none, 0⟩, [], 0) rfl

/-- C4 (code_bug divergence): once the stop flag is set, `Manager.record`'s
loop guard stops iterating, but the initial wait of `Manager.detect` never
exits while no frame has been captured, no matter how many iterations pass and
even with the stop flag set — the guard at manager.py 154 consults only
`latest_frame`, never `exit_event`, so `detect` blocks indefinitely when the
flag is set before the first frame arrives. -/
theorem detect_initial_wait_ignores_stop_flag :
    (∀ n : Nat, detectWaitExitsWithin (fun _ => none) true n = false) ∧
    recordLoopContinues true = false := by
  constructor
  · intro n
    simp [detectWaitExitsWithin]
  · rfl

/-- C5 (code_bug divergence): the minimum contour area the detection loop uses
is the hardcoded `Frame.contours` default 2500, not the configured
`--minimum-area` value (default 1000): `Manager.__init__` does not even accept
a minimum-area parameter. On a motion region of area 1600 the configured
pipeline would report motion while the code reports none. -/
theorem detect_minimum_area_not_configured :
    detectMinAreaUsed = contoursDefaultMinArea ∧
    cliMinimumAreaDefault = 1000 ∧
    detectMinAreaUsed ≠ cliMinimumAreaDefault ∧
    managerInitParamNames.contains "minimum_area" = false ∧
    0 < (Frame.contours fortySq fortyZeros cliMinimumAreaDefault).length ∧
    contoursCount fortySq fortyZeros = 0 :=
  ⟨rfl, rfl, by decide, by decide, by decide, by decide⟩

/-- C9: `Event.should_update_trigger delta` is true exactly when at least
`delta` time has elapsed since the trigger's last update — in particular it is
false while the elapsed time is strictly below `delta` — and the `updated`
timestamp is the clock reading taken at construction or at the latest
`update_trigger`. -/
theorem should_update_trigger_iff :
    ∀ (e : EventSt) (delta now : Int),
      (should_update_trigger e delta now = true ↔ delta ≤ now - e.updated) ∧
      (eventInit e.trigger now e.id).updated = now ∧
      (update_trigger e e.trigger now).updated = now := by
  intro e delta now
  refine ⟨?_, rfl, rfl⟩
  simp only [should_update_trigger, decide_eq_true_eq]
  omega

/-- Helper: `addFrames` advances `path_index` by the number of frames and
extends the written-name log by the consecutive indices starting at the
current `path_index`. -/
theorem addFrames_files_spec :
    ∀ (fs : List Grid) (e : EventSt),
      (addFrames e fs).path_index = e.path_index + fs.length ∧
      (addFrames e fs).files.map Prod.fst
        = e.files.map Prod.fst ++ List.range' e.path_index fs.length := by
  intro fs
  induction fs with
  | nil => intro e; simp [addFrames]
  | cons f fs ih =>
    intro e
    have h := ih (add_frame e f)
    constructor
    · rw [addFrames, h.1]
      simp only [add_frame, List.length_cons]
      omega
    · rw [addFrames, h.2]
      simp only [add_frame, List.map_append, List.length_cons, List.range'_succ,
        List.map_cons, List.map_nil]
      simp [List.append_assoc]

/-- C10: starting from a fresh event, `n` calls to `add_frame` leave
`path_index = n`, and the file names used are the pairwise-distinct indices
`0, ..., n-1` — each call writes the current `path_index` and increments it,
so no frame written by an earlier call is overwritten. -/
theorem add_frame_indices_distinct :
    ∀ (t : Grid) (now : Int) (id : Nat) (fs : List Grid),
      (addFrames (eventInit t now id) fs).path_index = fs.length ∧
      (addFrames (eventInit t now id) fs).files.map Prod.fst
        = List.range fs.length ∧
      ((addFrames (eventInit t now id) fs).files.map Prod.fst).Nodup := by
  intro t now id fs
  have h := addFrames_files_spec fs (eventInit t now id)
  have hpi : (eventInit t now id).path_index = 0 := rfl
  have hfl : (eventInit t now id).files = [] := rfl
  rw [hpi, hfl] at h
  have h2 : (addFrames (eventInit t now id) fs).files.map Prod.fst
      = List.range fs.length := by
    rw [h.2, List.range_eq_range']
    simp
  refine ⟨by simpa using h.1, h2, ?_⟩
  rw [h2]
  exact List.nodup_range fs.length

/-- Helper: every element of a `zipWith` comes from an element of each input
list. -/
theorem mem_zipWith_exists {α β γ : Type} {f : α → β → γ} :
    ∀ {a : List α} {b : List β} {c : γ}, c ∈ List.zipWith f a b →
      ∃ x, x ∈ a ∧ ∃ y, y ∈ b ∧ c = f x y := by
  intro a
  induction a with
  | nil => intro b c h; simp at h
  | cons x xs ih =>
    intro b c h
    cases b with
    | nil => simp at h
    | cons y ys =>
      simp only [List.zipWith_cons_cons, List.mem_cons] at h
      rcases h with h | h
      · exact ⟨x, List.mem_cons_self x xs, y, List.mem_cons_self y ys, h⟩
      · rcases ih h with ⟨u, hu, v, hv, rfl⟩
        exact ⟨u, List.mem_cons_of_mem x hu, v, List.mem_cons_of_mem y hv, rfl⟩

/-- Helper: zipping a list with itself is a map of the diagonal. -/
theorem zipWith_same {α γ : Type} (f : α → α → γ) :
    ∀ l : List α, List.zipWith f l l = l.map (fun x => f x x)
  | [] => rfl
  | x :: xs => by simp [zipWith_same f xs]

/-- Helper: pointwise max of all-zero rows is all-zero. -/
theorem allZero_zipWith_max {a b : List Nat} (ha : allZero a) (hb : allZero b) :
    allZero (List.zipWith max a b) := by
  intro v hv
  rcases mem_zipWith_exists hv with ⟨x, hx, y, hy, rfl⟩
  rw [ha x hx, hb y hy]
  rfl

/-- Helper: the horizontal dilation pass of an all-zero row is all-zero. -/
theorem allZero_hdilateRow {l : List Nat} (h : allZero l) :
    allZero (hdilateRow l) := by
  unfold hdilateRow
  apply allZero_zipWith_max
  · apply allZero_zipWith_max
    · intro v hv
      rcases List.mem_cons.mp hv with rfl | hv
      · rfl
      · exact h v hv
    · exact h
  · intro v hv
    rcases List.mem_append.mp hv with hv | hv
    · exact h v (List.drop_subset 1 l hv)
    · simpa using hv

/-- Helper: `zeroRowLike` is all-zero. -/
theorem allZero_zeroRowLike (g : Grid) : allZero (zeroRowLike g) := by
  unfold zeroRowLike
  cases g with
  | nil => intro v hv; simp at hv
  | cons r rs =>
    intro v hv
    rcases List.mem_map.mp hv with ⟨a, _, h⟩
    exact h.symm

/-- Helper: the vertical dilation pass of an all-zero grid is all-zero. -/
theorem allZeroG_vdilate {g : Grid} (h : allZeroG g) : allZeroG (vdilate g) := by
  have hz : ∀ r ∈ zeroRowLike g :: g, allZero r := by
    intro r hr
    rcases List.mem_cons.mp hr with rfl | hr
    · exact allZero_zeroRowLike g
    · exact h r hr
  have hd : ∀ r ∈ g.drop 1 ++ [zeroRowLike g], allZero r := by
    intro r hr
    rcases List.mem_append.mp hr with hr | hr
    · exact h r (List.drop_subset 1 g hr)
    · rcases List.mem_singleton.mp hr with rfl
      exact allZero_zeroRowLike g
  intro r hr
  rcases mem_zipWith_exists hr with ⟨x, hx, y, hy, rfl⟩
  rcases mem_zipWith_exists hx with ⟨u, hu, w, hw, rfl⟩
  exact allZero_zipWith_max (allZero_zipWith_max (hz u hu) (h w hw)) (hd y hy)

/-- Helper: one 3x3 dilation of an all-zero grid is all-zero. -/
theorem allZeroG_dilateOnce {g : Grid} (h : allZeroG g) :
    allZeroG (dilateOnce g) := by
  apply allZeroG_vdilate
  intro r hr
  rcases List.mem_map.mp hr with ⟨s, hs, rfl⟩
  exact allZero_hdilateRow (h s hs)

/-- Helper: iterated dilation of an all-zero grid is all-zero. -/
theorem allZeroG_dilateIter : ∀ (n : Nat) {g : Grid}, allZeroG g →
    allZeroG (dilateIter n g)
  | 0, _, h => h
  | n + 1, _, h => allZeroG_dilateIter n (allZeroG_dilateOnce h)

/-- Helper: thresholding a zero pixel gives zero (no threshold level is below
zero). -/
theorem threshPix_zero (t maxv : Nat) : threshPix t maxv 0 = 0 := by
  simp [threshPix]

/-- Helper: thresholding an all-zero grid gives an all-zero grid. -/
theorem allZeroG_gridThreshold (t maxv : Nat) {g : Grid} (h : allZeroG g) :
    allZeroG (gridThreshold t maxv g) := by
  intro r hr
  rcases List.mem_map.mp hr with ⟨s, hs, rfl⟩
  intro v hv
  rcases List.mem_map.mp hv with ⟨a, ha, rfl⟩
  rw [h s hs a ha]
  exact threshPix_zero t maxv

/-- Helper: a pixel's absolute difference with itself is zero. -/
theorem pixAbsDiff_self (a : Nat) : pixAbsDiff a a = 0 := by
  simp [pixAbsDiff]

/-- Helper: the delta of a frame with itself is all-zero. -/
theorem allZeroG_delta_self (g : Grid) : allZeroG (Frame.delta g g) := by
  unfold Frame.delta gridDelta
  rw [zipWith_same]
  intro r hr
  rcases List.mem_map.mp hr with ⟨s, _, rfl⟩
  unfold rowAbsDiff
  rw [zipWith_same]
  intro v hv
  rcases List.mem_map.mp hv with ⟨a, _, rfl⟩
  exact pixAbsDiff_self a

/-- Helper: an all-zero row has no nonzero runs. -/
theorem rowRuns_allZero : ∀ {row : List Nat}, allZero row → rowRuns row = [] := by
  have aux : ∀ (l : List Nat) (i : Nat), allZero l → runsAux l i none = [] := by
    intro l
    induction l with
    | nil => intro i _; rfl
    | cons v rest ih =>
      intro i h
      have hv : v = 0 := h v (List.mem_cons_self v rest)
      subst hv
      simp only [runsAux, if_pos rfl]
      exact ih (i + 1) (fun x hx => h x (List.mem_cons_of_mem 0 hx))
  intro row h
  exact aux row 0 h

/-- Helper: labelling an all-zero row in a state with no open components
leaves only the closed components. -/
theorem processRow_allZero {row : List Nat} (h : allZero row)
    (cl : List Nat) (nid : Nat) :
    processRow ⟨[], [], cl, nid⟩ row = ⟨[], [], cl, nid⟩ := by
  unfold processRow
  rw [rowRuns_allZero h]
  simp

/-- Helper: an all-zero mask has no connected components. -/
theorem componentSizes_allZero {g : Grid} (h : allZeroG g) :
    componentSizes g = [] := by
  have aux : ∀ (rows : Grid), allZeroG rows → ∀ (cl : List Nat) (nid : Nat),
      rows.foldl processRow ⟨[], [], cl, nid⟩ = ⟨[], [], cl, nid⟩ := by
    intro rows
    induction rows with
    | nil => intro _ cl nid; rfl
    | cons r rs ih =>
      intro hz cl nid
      simp only [List.foldl_cons]
      rw [processRow_allZero (hz r (List.mem_cons_self r rs)) cl nid]
      exact ih (fun x hx => hz x (List.mem_cons_of_mem r hx)) cl nid
  unfold componentSizes
  rw [aux g h [] 0]
  rfl

/-- C7: every frame is similar to itself — the absolute difference of a frame
with itself is zero everywhere, so after thresholding and dilation the mask is
all-zero and no contour of area at least the minimum survives. -/
theorem is_similar_self : ∀ F : Grid, Frame.is_similar F F = true := by
  intro F
  have hz : allZeroG (Frame.dilate F F 2) := by
    unfold Frame.dilate Frame.threshold
    exact allZeroG_dilateIter 2 (allZeroG_gridThreshold 30 255 (allZeroG_delta_self F))
  unfold Frame.is_similar Frame.contours
  rw [componentSizes_allZero hz]
  rfl

/-- Helper: `zipWith` respects pairwise relations on its inputs. -/
theorem forall2_zipWith {α β γ : Type} {R : α → α → Prop} {S : β → β → Prop}
    {T : γ → γ → Prop} {f : α → β → γ}
    (hf : ∀ a a2 b b2, R a a2 → S b b2 → T (f a b) (f a2 b2)) :
    ∀ {l1 l1s : List α} {l2 l2s : List β}, List.Forall₂ R l1 l1s →
      List.Forall₂ S l2 l2s →
      List.Forall₂ T (List.zipWith f l1 l2) (List.zipWith f l1s l2s) := by
  intro l1 l1s l2 l2s h1
  induction h1 generalizing l2 l2s with
  | nil =>
    intro h2
    simp only [List.zipWith_nil_left]
    exact List.Forall₂.nil
  | cons ha _ ih =>
    intro h2
    cases h2 with
    | nil =>
      simp only [List.zipWith_nil_right]
      exact List.Forall₂.nil
    | cons hb h2rest =>
      simp only [List.zipWith_cons_cons]
      exact List.Forall₂.cons (hf _ _ _ _ ha hb) (ih h2rest)

/-- Helper: pointwise row max respects the pointwise row order. -/
theorem rowLE_rowMax {a a2 b b2 : List Nat} (h1 : rowLE a a2) (h2 : rowLE b b2) :
    rowLE (rowMax a b) (rowMax a2 b2) :=
  forall2_zipWith (fun _ _ _ _ hx hy => max_le_max hx hy) h1 h2

/-- Helper: the horizontal dilation pass is monotone in the pointwise order. -/
theorem rowLE_hdilateRow {l l2 : List Nat} (h : rowLE l l2) :
    rowLE (hdilateRow l) (hdilateRow l2) := by
  unfold hdilateRow
  apply forall2_zipWith (fun _ _ _ _ hx hy => max_le_max hx hy)
  · exact forall2_zipWith (fun _ _ _ _ hx hy => max_le_max hx hy)
      (List.Forall₂.cons (Nat.le_refl 0) h) h
  · exact List.rel_append (List.forall₂_drop 1 h)
      (List.Forall₂.cons (Nat.le_refl 0) List.Forall₂.nil)

/-- Helper: `zeroRowLike` respects the grid order (both sides are all-zero
rows of equal length). -/
theorem rowLE_zeroRowLike {g h : Grid} (hle : gridLE g h) :
    rowLE (zeroRowLike g) (zeroRowLike h) := by
  unfold zeroRowLike
  cases hle with
  | nil => exact List.Forall₂.nil
  | cons hr _ =>
    unfold rowLE
    rw [List.forall₂_map_left_iff, List.forall₂_map_right_iff]
    exact hr.imp (fun _ _ _ => Nat.le_refl 0)

/-- Helper: zipping rows with `rowMax` respects the grid order. -/
theorem gridLE_zipWith_rowMax : ∀ {A A2 B B2 : List (List Nat)},
    List.Forall₂ rowLE A A2 → List.Forall₂ rowLE B B2 →
    List.Forall₂ rowLE (List.zipWith rowMax A B) (List.zipWith rowMax A2 B2) := by
  intro A A2 B B2 h1
  induction h1 generalizing B B2 with
  | nil =>
    intro _
    simp only [List.zipWith_nil_left]
    exact List.Forall₂.nil
  | cons ha _ ih =>
    intro h2
    cases h2 with
    | nil =>
      simp only [List.zipWith_nil_right]
      exact List.Forall₂.nil
    | cons hb h2rest =>
      simp only [List.zipWith_cons_cons]
      exact List.Forall₂.cons (rowLE_rowMax ha hb) (ih h2rest)

/-- Helper: the vertical dilation pass is monotone in the pointwise order. -/
theorem gridLE_vdilate {g h : Grid} (hle : gridLE g h) :
    gridLE (vdilate g) (vdilate h) := by
  unfold vdilate gridLE
  exact gridLE_zipWith_rowMax
    (gridLE_zipWith_rowMax (List.Forall₂.cons (rowLE_zeroRowLike hle) hle) hle)
    (List.rel_append (List.forall₂_drop 1 hle)
      (List.Forall₂.cons (rowLE_zeroRowLike hle) List.Forall₂.nil))

/-- Helper: one 3x3 dilation is monotone in the pointwise order. -/
theorem gridLE_dilateOnce {g h : Grid} (hle : gridLE g h) :
    gridLE (dilateOnce g) (dilateOnce h) := by
  unfold dilateOnce
  apply gridLE_vdilate
  unfold gridLE
  rw [List.forall₂_map_left_iff, List.forall₂_map_right_iff]
  exact hle.imp (fun _ _ hab => rowLE_hdilateRow hab)

/-- Helper: iterated dilation is monotone in the pointwise order. -/
theorem gridLE_dilateIter : ∀ (n : Nat) {g h : Grid}, gridLE g h →
    gridLE (dilateIter n g) (dilateIter n h)
  | 0, _, _, hle => hle
  | n + 1, _, _, hle => gridLE_dilateIter n (gridLE_dilateOnce hle)

/-- Helper: raising the threshold level lowers each thresholded pixel. -/
theorem threshPix_le {t1 t2 maxv v : Nat} (h : t1 ≤ t2) :
    threshPix t2 maxv v ≤ threshPix t1 maxv v := by
  unfold threshPix
  by_cases hv : t2 < v
  · rw [if_pos hv, if_pos (lt_of_le_of_lt h hv)]
  · rw [if_neg hv]
    exact Nat.zero_le _

/-- Helper: mapping pointwise-ordered functions over the same list gives
pointwise-ordered lists. -/
theorem forall2_map_map {α β : Type} {f g : α → β} {R : β → β → Prop}
    (hfg : ∀ x, R (f x) (g x)) :
    ∀ l : List α, List.Forall₂ R (l.map f) (l.map g)
  | [] => List.Forall₂.nil
  | x :: xs => List.Forall₂.cons (hfg x) (forall2_map_map hfg xs)

/-- C8 (amended): raising the threshold level never enlarges the motion mask —
for `t1 ≤ t2` every pixel of the dilated thresholded mask at level `t2` is
bounded by the corresponding pixel at level `t1` (pointwise, so every nonzero
mask pixel at the higher level is nonzero at the lower level). The
surviving-contour count, by contrast, can increase when the smaller mask
splits one contour into several, as the counterexample shows. -/
theorem pipelineMask_antitone_in_threshold :
    ∀ (a b : Grid) (iterations t1 t2 : Nat), t1 ≤ t2 →
      gridLE (pipelineMask a b t2 iterations) (pipelineMask a b t1 iterations) := by
  intro a b iterations t1 t2 h
  unfold pipelineMask Frame.threshold gridThreshold
  apply gridLE_dilateIter
  unfold gridLE
  exact forall2_map_map (fun row => forall2_map_map (fun v => threshPix_le h) row)
    (Frame.delta a b)

/-- Witness for the C8 amended theorem at the counterexample frames and the
levels 30 and 100. -/
theorem pipelineMask_antitone_witness :
    (30 : Nat) ≤ 100 ∧
    gridLE (pipelineMask cexA cexB 100 2) (pipelineMask cexA cexB 30 2) :=
  ⟨by decide, pipelineMask_antitone_in_threshold cexA cexB 2 30 100 (by decide)⟩

/-- C8 counterexample: on the concrete frame pair `cexA`/`cexB` with minimum
area 10, thresholding at level 30 yields one surviving contour but
thresholding at the higher level 100 yields two — erasing the faint bridge
splits one contour into two, increasing the surviving-contour count. At this
input the counts coincide with the real program's: every surviving region is a
solid rectangle whose pixel area (75; 35 and 35) and whose `cv2.contourArea`
polygon area (56; 24 and 24) are all at least 10, so the program also reports
1 contour at level 30 and 2 at level 100. -/
theorem pipeline_threshold_count_counterexample :
    (30 : Nat) ≤ 100 ∧
    pipelineCount cexA cexB 30 2 10 = 1 ∧
    pipelineCount cexA cexB 100 2 10 = 2 ∧
    ¬ (pipelineCount cexA cexB 100 2 10 ≤ pipelineCount cexA cexB 30 2 10) :=
  ⟨by decide, by decide, by decide, by decide⟩

/-- C2 (code_bug divergence): whenever the loop is Idle with a background
model present and the pipeline yields at least one surviving contour, the
event-creation path raises `TypeError` instead of creating an event —
`Manager._create_event` passes five constructor arguments to
`Event.__init__(self, trigger)`, which accepts one. No sink is opened and the
`event_start` callback never fires. -/
theorem create_event_raises_type_error :
    ∀ (cfg : Config) (s : MState) (blur : Grid) (now dur : Int) (avg : Grid),
      s.average_frame = some avg → s.event = none → 0 < contoursCount blur avg →
      detectCycle cfg s blur now dur = .error PyErr.typeError := by
  intro cfg s blur now dur avg hav hev hc
  simp only [detectCycle, hav, hev]
  rw [if_pos hc]
  rfl

/-- Witness for C2: an Idle state over the all-zero background receiving the
all-255 motion frame (one contour clearing the minimum area 2500 under both
the pixel-count and the `cv2.contourArea` semantics) raises `TypeError`. -/
theorem create_event_raises_type_error_witness :
    ((⟨none, some zerosSq, 0⟩ : MState).average_frame = some zerosSq) ∧
    ((⟨none, some zerosSq, 0⟩ : MState).event = none) ∧
    0 < contoursCount onesSq zerosSq ∧
    detectCycle cfg0 ⟨none, some zerosSq, 0⟩ onesSq 10 1 = .error PyErr.typeError := by
  have hc : 0 < contoursCount onesSq zerosSq := by decide
  exact ⟨rfl, rfl, hc,
    create_event_raises_type_error cfg0 ⟨none, some zerosSq, 0⟩ onesSq 10 1 zerosSq rfl rfl hc⟩

/-- C3 (code_bug divergence): when an event is Active, due for re-evaluation,
and the current motion frame is similar to its trigger, the closing path
raises `AttributeError` at its first step — `self.event.writer.release()`
accesses a `writer` attribute that `Event` never defines — so the sink
release, the `event_end` callback, the background refresh and the transition
to Idle are never reached. -/
theorem close_event_raises_attribute_error :
    ∀ (cfg : Config) (s : MState) (blur : Grid) (now dur : Int) (avg : Grid) (e : EventSt),
      s.average_frame = some avg → s.event = some e →
      should_update_trigger e cfg.recording_length now = true →
      Frame.is_similar e.trigger blur = true →
      detectCycle cfg s blur now dur = .error PyErr.attributeError := by
  intro cfg s blur now dur avg e hav hev hdue hsim
  simp only [detectCycle, hav, hev]
  rw [if_pos hdue, if_neg (by simp [hsim])]
  rfl

/-- Witness for C3: a tiny one-pixel state whose event is due (trigger updated
at 0, clock at 10, recording length 5) and whose motion frame equals the
trigger raises `AttributeError`. -/
theorem close_event_raises_attribute_error_witness :
    should_update_trigger (eventInit tinyG 0 7) cfg0.recording_length 10 = true ∧
    Frame.is_similar (eventInit tinyG 0 7).trigger tinyG = true ∧
    detectCycle cfg0 ⟨some (eventInit tinyG 0 7), some tinyG, 8⟩ tinyG 10 1 =
      .error PyErr.attributeError := by
  have h1 : should_update_trigger (eventInit tinyG 0 7) cfg0.recording_length 10 = true := by
    decide
  have h2 : Frame.is_similar (eventInit tinyG 0 7).trigger tinyG = true := by decide
  exact ⟨h1, h2,
    close_event_raises_attribute_error cfg0 ⟨some (eventInit tinyG 0 7), some tinyG, 8⟩
      tinyG 10 1 tinyG (eventInit tinyG 0 7) rfl rfl h1 h2⟩

/-- C6: at most one event exists at any time. The active-event slot is a
single reference, and: (1) while an event is active, every non-raising cycle
keeps an event with the *same* identity active — no second event is ever
created alongside it; (2) the creation attempt (the `TypeError` branch) is
reachable only from the Idle state; (3) across any run of cycles whose motion
frames are continuously dissimilar from the current trigger and which are each
due for re-evaluation, the loop keeps the original event active, fires no
callbacks, and raises nothing. -/
theorem detect_at_most_one_event :
    (∀ (cfg : Config) (s : MState) (blur : Grid) (now dur : Int) (e : EventSt) out,
      s.event = some e → detectCycle cfg s blur now dur = .ok out →
      ∃ e2, out.1.event = some e2 ∧ e2.id = e.id) ∧
    (∀ (cfg : Config) (s : MState) (blur : Grid) (now dur : Int),
      detectCycle cfg s blur now dur = .error PyErr.typeError → s.event = none) ∧
    (∀ (cfg : Config) (e : EventSt) (avg : Grid) (inputs : List (Grid × Int × Int))
      (s : MState),
      s.event = some e → s.average_frame = some avg →
      dissimChain e.trigger inputs = true →
      spacedTimes cfg.recording_length e.updated inputs = true →
      ∃ s2 e2, detectRun cfg s inputs = .ok (s2, []) ∧ s2.event = some e2 ∧
        e2.id = e.id) := by
  refine ⟨?_, ?_, ?_⟩
  · intro cfg s blur now dur e out hev hok
    cases hav : s.average_frame with
    | none =>
      simp only [detectCycle, hav] at hok
      cases hok
      exact ⟨e, hev, rfl⟩
    | some avg =>
      simp only [detectCycle, hav, hev] at hok
      split at hok
      · split at hok
        · cases hok
          exact ⟨update_trigger e blur now, rfl, rfl⟩
        · split at hok
          · exact absurd (by assumption : eventHasWriter = true) (by decide)
          · simp at hok
      · cases hok
        exact ⟨e, hev, rfl⟩
  · intro cfg s blur now dur h
    cases hav : s.average_frame with
    | none =>
      simp only [detectCycle, hav] at h
      exact Except.noConfusion h
    | some avg =>
      cases hev : s.event with
      | none => rfl
      | some e =>
        simp only [detectCycle, hav, hev] at h
        split at h
        · split at h
          · simp at h
          · split at h
            · simp at h
            · injection h with h2
              exact PyErr.noConfusion h2
        · simp at h
  · intro cfg e avg inputs
    induction inputs generalizing e with
    | nil =>
      intro s hev _ _ _
      exact ⟨s, e, rfl, hev, rfl⟩
    | cons p rest ih =>
      obtain ⟨b, now, dur⟩ := p
      intro s hev hav hchain hsp
      simp only [dissimChain, Bool.and_eq_true, Bool.not_eq_true'] at hchain
      simp only [spacedTimes, Bool.and_eq_true, decide_eq_true_eq] at hsp
      have hdue : should_update_trigger e cfg.recording_length now = true := by
        simp [should_update_trigger, hsp.1]
      have hstep : detectCycle cfg s b now dur =
          .ok ({ s with event := some (update_trigger e b now) }, [], 0) := by
        simp only [detectCycle, hav, hev]
        rw [if_pos hdue, if_pos hchain.1]
      have hnav : ({ s with event := some (update_trigger e b now) } : MState).average_frame
          = some avg := hav
      obtain ⟨s2, e2, hrun, hse, hid⟩ :=
        ih (update_trigger e b now) { s with event := some (update_trigger e b now) }
          rfl hnav hchain.2 hsp.2
      refine ⟨s2, e2, ?_, hse, hid⟩
      simp only [detectRun, hstep, hrun]
      rfl

/-- Witness for C6's continuous-motion run: from the concrete active state
`s6`, the two dissimilar due cycles of `inputs6` keep event 3 active with no
callbacks. -/
theorem detect_at_most_one_event_witness :
    s6.event = some e6 ∧ s6.average_frame = some zerosSq ∧
    dissimChain e6.trigger inputs6 = true ∧
    spacedTimes cfg0.recording_length e6.updated inputs6 = true ∧
    ∃ s2 e2, detectRun cfg0 s6 inputs6 = .ok (s2, []) ∧ s2.event = some e2 ∧
      e2.id = e6.id := by
  have h1 : dissimChain e6.trigger inputs6 = true := by decide
  have h2 : spacedTimes cfg0.recording_length e6.updated inputs6 = true := by decide
  exact ⟨rfl, rfl, h1, h2,
    detect_at_most_one_event.2.2 cfg0 e6 zerosSq inputs6 s6 rfl rfl h1 h2⟩

end Catnip
